import Mathlib

/-!
Shallow embedding of meshio's dispatcher module (`src/meshio/_helpers.py`):
the format registries, the extension-based format inference, and the
validation/dispatch logic of `read` and `write`.  Python exceptions are
modelled with `Except` over an error type distinguishing the exception
classes that the module raises; Python dicts keyed by strings are modelled
as association lists in the source's insertion order (all keys are distinct,
so `List.lookup` agrees with dict lookup).
-/

namespace Meshio

/-- The exception classes raised by the dispatcher module: `ReadError` and
`WriteError` from `meshio._exceptions`, plus the builtin `KeyError` (raised
on an unknown write format) and `ValueError` (raised by `int()` on a
non-numeric literal). -/
inductive PyError where
  | readError (msg : String)
  | writeError (msg : String)
  | keyError (msg : String)
  | valueError (msg : String)
deriving DecidableEq

deriving instance DecidableEq for Except

/-- The backend modules imported by `_helpers.py`; an opaque token per
module, since the backends themselves are out of scope. -/
inductive Backend where
  | abaqus | ansys | cgns | dolfin | exodus | flac3d | gmsh | h5m | mdpa
  | med | medit | nastran | neuroglancer | obj | off | permas | ply | stl
  | svg | tetgen | vtk | vtu | wkt | xdmf
deriving DecidableEq

/-- `input_filetypes` (lines 36-64), in source order. -/
def input_filetypes : List String :=
  ["abaqus", "ansys", "cgns", "dolfin-xml", "wkt", "exodus", "flac3d",
   "gmsh-ascii", "gmsh-binary", "mdpa", "med", "medit", "moab", "nastran",
   "neuroglancer", "permas", "ply-ascii", "ply-binary", "obj", "off",
   "stl-ascii", "stl-binary", "vtk-ascii", "vtk-binary", "vtu-ascii",
   "vtu-binary", "xdmf"]

/-- `output_filetypes` (lines 66-102), in source order. -/
def output_filetypes : List String :=
  ["abaqus", "ansys-ascii", "ansys-binary", "cgns", "dolfin-xml", "wkt",
   "exodus", "flac3d", "gmsh2-ascii", "gmsh2-binary", "gmsh4-ascii",
   "gmsh4-binary", "mdpa", "med", "medit", "moab", "nastran", "neuroglancer",
   "obj", "off", "permas", "ply-ascii", "ply-binary", "stl-ascii",
   "stl-binary", "svg", "tetgen", "vtk-ascii", "vtk-binary", "vtu-ascii",
   "vtu-binary", "xdmf", "xdmf-binary", "xdmf-hdf", "xdmf-xml"]

/-- `_extension_to_filetype` (lines 104-136), in source order. -/
def extension_to_filetype : List (String × String) :=
  [(".bdf", "nastran"), (".cgns", "cgns"), (".e", "exodus"),
   (".ex2", "exodus"), (".exo", "exodus"), (".f3grid", "flac3d"),
   (".fem", "nastran"), (".med", "med"), (".mesh", "medit"),
   (".msh", "gmsh4-binary"), (".nas", "nastran"), (".xml", "dolfin-xml"),
   (".post", "permas"), (".post.gz", "permas"), (".dato", "permas"),
   (".dato.gz", "permas"), (".h5m", "moab"), (".obj", "obj"),
   (".off", "off"), (".ply", "ply-binary"), (".stl", "stl-binary"),
   (".vtu", "vtu-binary"), (".vtk", "vtk-binary"), (".wkt", "wkt"),
   (".xdmf", "xdmf"), (".xmf", "xdmf"), (".inp", "abaqus"),
   (".mdpa", "mdpa"), (".svg", "svg"), (".node", "tetgen"),
   (".ele", "tetgen")]

/-- Dict lookup in `_extension_to_filetype`. -/
def lookupExt (e : String) : Option String :=
  extension_to_filetype.lookup e

/-- The character list of a string, split on a separator character; models
Python's `str.split(sep)` (for a one-character separator). -/
def splitOnChar (sep : Char) : List Char → List (List Char)
  | [] => [[]]
  | c :: rest =>
    let r := splitOnChar sep rest
    if c = sep then [] :: r
    else match r with
      | [] => [[c]]
      | h :: t => (c :: h) :: t

/-- The final path component: everything after the last slash; models
`pathlib.PurePath.name` for the plain relative/absolute paths the
dispatcher receives. -/
def pathName (p : String) : String :=
  match (splitOnChar '/' p.data).getLast? with
  | some l => ⟨l⟩
  | none => ""

/-- Models `pathlib.PurePath.suffixes`: on the final component, a name
ending in a dot has no suffixes; otherwise leading dots are stripped and
each dot-separated piece after the first becomes a suffix, with its dot. -/
def pathSuffixes (p : String) : List String :=
  let name := (pathName p).data
  match name.getLast? with
  | some '.' => []
  | _ =>
    let name := name.dropWhile (fun c => c = '.')
    ((splitOnChar '.' name).drop 1).map (fun l => ⟨'.' :: l⟩)

/-- The loop of `_filetype_from_path` (lines 142-145): walk the suffixes
from the rightmost leftward (`reversed(path.suffixes)`), prepend each to
the accumulated extension, and record the table's value whenever the
accumulated extension matches — the last match recorded wins.  Returns the
final accumulated extension together with the recorded match, if any. -/
def inferLoop : List String → String → Option String → String × Option String
  | [], ext, out => (ext, out)
  | s :: rest, ext, out =>
    let ext := s ++ ext
    let out := match lookupExt ext with
      | some v => some v
      | none => out
    inferLoop rest ext out

/-- `_filetype_from_path` (lines 139-149). -/
def filetype_from_path (p : String) : Except PyError String :=
  let r := inferLoop (pathSuffixes p).reverse "" none
  match r.2 with
  | none => .error (.readError
      ("Could not deduce file format from extension \x27" ++ r.1 ++ "\x27."))
  | some out => .ok out

/-- The fully accumulated extension the loop ends with: the concatenation
of all of the path's suffixes, in order. -/
def fullExt (p : String) : String :=
  (pathSuffixes p).reverse.foldl (fun acc s => s ++ acc) ""

/-- `format_to_reader` (lines 160-210): the dict inside `read`, in source
order; each identifier maps to the backend module whose `read` is called. -/
def format_to_reader : List (String × Backend) :=
  [("ansys", .ansys), ("ansys-ascii", .ansys), ("ansys-binary", .ansys),
   ("cgns", .cgns), ("gmsh", .gmsh), ("gmsh-ascii", .gmsh),
   ("gmsh-binary", .gmsh), ("gmsh2", .gmsh), ("gmsh2-ascii", .gmsh),
   ("gmsh2-binary", .gmsh), ("gmsh4", .gmsh), ("gmsh4-ascii", .gmsh),
   ("gmsh4-binary", .gmsh), ("flac3d", .flac3d), ("wkt", .wkt),
   ("med", .med), ("medit", .medit), ("nastran", .nastran),
   ("neuroglancer", .neuroglancer), ("dolfin-xml", .dolfin),
   ("permas", .permas), ("moab", .h5m), ("obj", .obj), ("off", .off),
   ("ply", .ply), ("ply-ascii", .ply), ("ply-binary", .ply),
   ("stl", .stl), ("stl-ascii", .stl), ("stl-binary", .stl),
   ("tetgen", .tetgen), ("vtu-ascii", .vtu), ("vtu-binary", .vtu),
   ("vtk-ascii", .vtk), ("vtk-binary", .vtk), ("xdmf", .xdmf),
   ("exodus", .exodus), ("abaqus", .abaqus), ("mdpa", .mdpa)]

/-- Dict lookup in `format_to_reader`. -/
def readerLookup (f : String) : Option Backend :=
  format_to_reader.lookup f

/-- Caller-supplied backend options (`**kwargs`): an association list of
option names to opaque values. -/
abbrev Kwargs := List (String × String)

/-- The invocation a `_writer_map` entry performs: which backend's `write`
runs, the fixed positional version token (gmsh), the fixed `binary=` flag,
the fixed `data_format=` token (xdmf), and the keyword options the backend
actually receives. -/
structure BackendCall where
  backend : Backend
  version : Option String
  binary : Option Bool
  data_fmt : Option String
  kwargs : Kwargs
deriving DecidableEq

/-- `_writer_map` (lines 303-345), in source order: each identifier maps to
the function of the caller's kwargs describing the backend invocation the
entry's lambda (or bare `module.write`) performs.  The `xdmf-binary`,
`xdmf-hdf`, `xdmf-xml` entries and their `xdmf3` twins accept `**kwargs`
but do not pass them on. -/
def writer_map : List (String × (Kwargs → BackendCall)) :=
  [("moab", fun kw => ⟨.h5m, none, none, none, kw⟩),
   ("ansys-ascii", fun kw => ⟨.ansys, none, some false, none, kw⟩),
   ("ansys-binary", fun kw => ⟨.ansys, none, some true, none, kw⟩),
   ("wkt", fun kw => ⟨.wkt, none, none, none, kw⟩),
   ("gmsh2-ascii", fun kw => ⟨.gmsh, some "2", some false, none, kw⟩),
   ("gmsh2-binary", fun kw => ⟨.gmsh, some "2", some true, none, kw⟩),
   ("gmsh4-ascii", fun kw => ⟨.gmsh, some "4", some false, none, kw⟩),
   ("gmsh4-binary", fun kw => ⟨.gmsh, some "4", some true, none, kw⟩),
   ("med", fun kw => ⟨.med, none, none, none, kw⟩),
   ("medit", fun kw => ⟨.medit, none, none, none, kw⟩),
   ("dolfin-xml", fun kw => ⟨.dolfin, none, none, none, kw⟩),
   ("neuroglancer", fun kw => ⟨.neuroglancer, none, none, none, kw⟩),
   ("obj", fun kw => ⟨.obj, none, none, none, kw⟩),
   ("off", fun kw => ⟨.off, none, none, none, kw⟩),
   ("permas", fun kw => ⟨.permas, none, none, none, kw⟩),
   ("ply-ascii", fun kw => ⟨.ply, none, some false, none, kw⟩),
   ("ply-binary", fun kw => ⟨.ply, none, some true, none, kw⟩),
   ("stl-ascii", fun kw => ⟨.stl, none, some false, none, kw⟩),
   ("stl-binary", fun kw => ⟨.stl, none, some true, none, kw⟩),
   ("tetgen", fun kw => ⟨.tetgen, none, none, none, kw⟩),
   ("vtu-ascii", fun kw => ⟨.vtu, none, some false, none, kw⟩),
   ("vtu-binary", fun kw => ⟨.vtu, none, some true, none, kw⟩),
   ("vtu", fun kw => ⟨.vtu, none, some true, none, kw⟩),
   ("vtk-ascii", fun kw => ⟨.vtk, none, some false, none, kw⟩),
   ("vtk-binary", fun kw => ⟨.vtk, none, some true, none, kw⟩),
   ("vtk", fun kw => ⟨.vtk, none, some true, none, kw⟩),
   ("xdmf", fun kw => ⟨.xdmf, none, none, none, kw⟩),
   ("xdmf-binary", fun _ => ⟨.xdmf, none, none, some "Binary", []⟩),
   ("xdmf-hdf", fun _ => ⟨.xdmf, none, none, some "HDF", []⟩),
   ("xdmf-xml", fun _ => ⟨.xdmf, none, none, some "XML", []⟩),
   ("xdmf3", fun kw => ⟨.xdmf, none, none, none, kw⟩),
   ("xdmf3-binary", fun _ => ⟨.xdmf, none, none, some "Binary", []⟩),
   ("xdmf3-hdf", fun _ => ⟨.xdmf, none, none, some "HDF", []⟩),
   ("xdmf3-xml", fun _ => ⟨.xdmf, none, none, some "XML", []⟩),
   ("abaqus", fun kw => ⟨.abaqus, none, none, none, kw⟩),
   ("exodus", fun kw => ⟨.exodus, none, none, none, kw⟩),
   ("mdpa", fun kw => ⟨.mdpa, none, none, none, kw⟩),
   ("svg", fun kw => ⟨.svg, none, none, none, kw⟩),
   ("nastran", fun kw => ⟨.nastran, none, none, none, kw⟩),
   ("flac3d", fun kw => ⟨.flac3d, none, none, none, kw⟩),
   ("cgns", fun kw => ⟨.cgns, none, none, none, kw⟩)]

/-- Dict lookup in `_writer_map`. -/
def writerLookup (f : String) : Option (Kwargs → BackendCall) :=
  writer_map.lookup f

/-- `_writer_map.keys()`, in the dict's insertion order. -/
def writerKeys : List String :=
  writer_map.map Prod.fst

/-- Lexicographic strictly-less on character lists, by code points: the
comparison Python uses between strings. -/
def strLt : List Char → List Char → Bool
  | [], [] => false
  | [], _ :: _ => true
  | _ :: _, [] => false
  | a :: as, b :: bs =>
    if a.toNat < b.toNat then true
    else if b.toNat < a.toNat then false
    else strLt as bs

/-- Python's `a <= b` on strings. -/
def pyStrLe (a b : String) : Bool :=
  strLt a.data b.data || a == b

/-- Insert a string into a list that is kept sorted ascending. -/
def insertSorted (s : String) : List String → List String
  | [] => [s]
  | t :: ts => if pyStrLe s t then s :: t :: ts else t :: insertSorted s ts

/-- Python's `sorted` on a list of strings (ascending, by code points). -/
def sortStr (l : List String) : List String :=
  l.foldr insertSorted []

/-- A list of strings is in ascending order under Python's comparison. -/
abbrev StrSorted (l : List String) : Prop :=
  List.Pairwise (fun a b => pyStrLe a b = true) l

/-- Python's `str()` of a list of strings, as interpolated by
`"...".format(...)`: the elements in repr quotes, comma-separated, in
square brackets. -/
def pyReprStrList (l : List String) : String :=
  "[" ++ String.intercalate ", " (l.map (fun s => "\x27" ++ s ++ "\x27")) ++ "]"

/-- Modelled from the spec: the static cell-shape table `num_nodes_per_cell`
lives in `meshio/_common.py`, which is not among the sources here.  The spec
describes it as a "static mapping from cell-type identifier to expected node
count" and names `"triangle"` (3 nodes) and `"tetra"` among its keys; a few
standard linear cell types are included alongside them. -/
def num_nodes_per_cell : List (String × Nat) :=
  [("vertex", 1), ("line", 2), ("triangle", 3), ("quad", 4),
   ("tetra", 4), ("hexahedron", 8), ("wedge", 6), ("pyramid", 5)]

/-- The digit value of a decimal digit character, if it is one. -/
def charDigit (c : Char) : Option Nat :=
  if '0' ≤ c ∧ c ≤ '9' then some (c.toNat - 48) else none

/-- The ASCII characters `int()` strips as surrounding whitespace: tab
through carriage return (0x09-0x0d) and space (0x20). -/
def pyWhitespace (c : Char) : Bool :=
  (0x09 ≤ c.toNat && c.toNat ≤ 0x0d) || c.toNat = 0x20

/-- Strip `pyWhitespace` from both ends of a character list. -/
def pyStrip (l : List Char) : List Char :=
  ((l.dropWhile pyWhitespace).reverse.dropWhile pyWhitespace).reverse

/-- The digit run after a first digit: further digits with PEP 515
underscore grouping — an underscore must sit between two digits, so it
cannot lead, trail, or repeat. -/
def digitsTail : List Char → Nat → Option Nat
  | [], acc => some acc
  | '_' :: rest, acc =>
    match rest with
    | c :: rest2 =>
      match charDigit c with
      | some d => digitsTail rest2 (10 * acc + d)
      | none => none
    | [] => none
  | c :: rest, acc =>
    match charDigit c with
    | some d => digitsTail rest (10 * acc + d)
    | none => none

/-- A nonempty digit run with underscore grouping, as a number. -/
def decDigits : List Char → Option Nat
  | [] => none
  | c :: rest =>
    match charDigit c with
    | some d => digitsTail rest d
    | none => none

/-- Decimal-literal parse underlying `int(s)` for base 10: surrounding
whitespace stripped from both ends, then an optional sign directly
followed by digits with underscore grouping.  This is exactly the
builtin's grammar on ASCII strings (checked against CPython: whitespace
set 0x09-0x0d and 0x20, `" +3"` ok, `"+ 3"`/`"_1"`/`"1_"`/`"1__2"` fail,
`"1_2_3"` = 123); non-ASCII decimal digits and non-ASCII whitespace are
outside this model. -/
def pyIntParse (l : List Char) : Option Int :=
  match pyStrip l with
  | '-' :: rest => (decDigits rest).map (fun n => -(n : Int))
  | '+' :: rest => (decDigits rest).map (fun n => (n : Int))
  | l2 => (decDigits l2).map (fun n => (n : Int))

/-- Python's `int(s)` on a decimal string; a string outside the literal
grammar raises `ValueError` with the builtin's message (which quotes the
original, unstripped string). -/
def pyInt (s : String) : Except PyError Int :=
  match pyIntParse s.data with
  | some n => .ok n
  | none => .error (.valueError
      ("invalid literal for int() with base 10: \x27" ++ s ++ "\x27"))

/-- Modelled from the spec: the `Mesh` value type lives in
`meshio/_mesh.py`, not among the sources here.  The dispatcher's validation
only inspects `mesh.cells`, a mapping from cell-type key to a 2-d
connectivity array; a cell block is modelled by its row width
(`value.shape[1]`), the only datum the validation reads, and `points` is
carried along as opaque data. -/
structure Mesh where
  points : List (List Int)
  cells : List (String × Nat)

/-- Python string slicing `s[:7]` (by characters). -/
def strTake (s : String) (n : Nat) : String :=
  ⟨s.data.take n⟩

/-- Python string slicing `s[7:]` (by characters). -/
def strDrop (s : String) (n : Nat) : String :=
  ⟨s.data.drop n⟩

/-- One iteration of the cell-sanity loop in `write` (lines 287-297): keys
starting with `"polygon"` must have width `int(key[7:])` (the `int` call
itself can raise `ValueError`); keys in `num_nodes_per_cell` must have the
table's width; any other key is skipped. -/
def checkCell (key : String) (width : Nat) : Except PyError Unit :=
  if strTake key 7 = "polygon" then
    match pyInt (strDrop key 7) with
    | .error e => .error e
    | .ok n => if (width : Int) ≠ n then .error (.writeError "") else .ok ()
  else
    match num_nodes_per_cell.lookup key with
    | some n => if width ≠ n then .error (.writeError "") else .ok ()
    | none => .ok ()

/-- The cell-sanity loop of `write` over all blocks, failing at the first
bad one. -/
def checkCells : List (String × Nat) → Except PyError Unit
  | [] => .ok ()
  | (k, w) :: rest =>
    match checkCell k w with
    | .error e => .error e
    | .ok _ => checkCells rest

/-- A source or destination: an in-memory buffer (for which
`meshio._files.is_buffer` is true) or a filesystem path. -/
inductive FileName where
  | buffer
  | path (p : String)
deriving DecidableEq

/-- The invocation `read` ends in: `format_to_reader[fmt].read(filename)`. -/
structure ReadCall where
  backend : Backend
  source : FileName
deriving DecidableEq

/-- `read` (lines 152-234).  `ex` models `pathlib.Path.exists`.  Buffers
demand an explicit non-`"tetgen"` format; paths must exist, and a missing
or falsy (`None` or empty) format is inferred from the extension; then the
identifier is resolved in `format_to_reader`, with a diagnostic naming the
file for path sources. -/
def read (ex : String → Bool) (fn : FileName) (fmt : Option String) :
    Except PyError ReadCall :=
  match fn with
  | .buffer =>
    match fmt with
    | none => .error (.readError "File format must be given if buffer is used")
    | some f =>
      if f = "tetgen" then
        .error (.readError
          "tetgen format is spread across multiple files, and so cannot be read from a buffer")
      else
        match readerLookup f with
        | none => .error (.readError ("Unknown file format \x27" ++ f ++ "\x27"))
        | some b => .ok ⟨b, .buffer⟩
  | .path p =>
    if ex p then
      let resolved : Except PyError String :=
        match fmt with
        | none => filetype_from_path p
        | some f => if f = "" then filetype_from_path p else .ok f
      match resolved with
      | .error e => .error e
      | .ok f =>
        match readerLookup f with
        | none => .error (.readError
            ("Unknown file format \x27" ++ f ++ "\x27 of \x27" ++ p ++ "\x27."))
        | some b => .ok ⟨b, .path p⟩
    else
      .error (.readError ("File " ++ p ++ " not found."))

/-- The format-resolution prefix of `write` (lines 264-275): buffers demand
an explicit non-`"tetgen"` format; for paths a missing or falsy format is
inferred from the extension.  `write` does not check existence. -/
def resolveWriteFormat (fn : FileName) (fmt : Option String) :
    Except PyError String :=
  match fn with
  | .buffer =>
    match fmt with
    | none => .error (.writeError "File format must be supplied if `filename` is a buffer")
    | some f =>
      if f = "tetgen" then
        .error (.writeError
          "tetgen format is spread across multiple files, and so cannot be written to a buffer")
      else .ok f
  | .path p =>
    match fmt with
    | none => filetype_from_path p
    | some f => if f = "" then filetype_from_path p else .ok f

/-- `write` (lines 255-300): resolve the format, look the identifier up in
`_writer_map` (a miss raises `KeyError` listing the sorted keys), run the
cell-sanity loop, then invoke the writer with the caller's kwargs. -/
def write (fn : FileName) (mesh : Mesh) (fmt : Option String) (kw : Kwargs) :
    Except PyError BackendCall :=
  match resolveWriteFormat fn fmt with
  | .error e => .error e
  | .ok f =>
    match writerLookup f with
    | none => .error (.keyError
        ("Unknown format \x27" ++ f ++ "\x27. Pick one of " ++
          pyReprStrList (sortStr writerKeys)))
    | some w =>
      match checkCells mesh.cells with
      | .error e => .error e
      | .ok _ => .ok (w kw)

/-- The six `_writer_map` identifiers whose entries fix `data_format=` and
do not pass the caller's `**kwargs` on to `xdmf.write`. -/
def xdmfDataFmtAliases : List String :=
  ["xdmf-binary", "xdmf-hdf", "xdmf-xml",
   "xdmf3-binary", "xdmf3-hdf", "xdmf3-xml"]

/-- Boolean check that a list of strings is ascending under Python's
comparison. -/
def strSortedB : List String → Bool
  | [] => true
  | a :: rest => rest.all (fun b => pyStrLe a b) && strSortedB rest

/-- Whether `int(s)` succeeds. -/
def pyIntOk (s : String) : Bool :=
  match pyInt s with
  | .ok _ => true
  | .error _ => false

/-- Whether a `write` outcome is a raised `WriteError`. -/
def raisedWriteError : Except PyError BackendCall → Bool
  | .error (.writeError _) => true
  | _ => false

/-- Whether a `write` outcome is a raised `KeyError`. -/
def raisedKeyError : Except PyError BackendCall → Bool
  | .error (.keyError _) => true
  | _ => false

theorem inferLoop_fst (l : List String) (e : String) (o : Option String) :
    (inferLoop l e o).1 = l.foldl (fun acc s => s ++ acc) e := by
  induction l generalizing e o with
  | nil => rfl
  | cons s rest ih => simp only [inferLoop, List.foldl_cons]; exact ih _ _

theorem inferLoop_append (l : List String) (s e : String) (o : Option String) :
    inferLoop (l ++ [s]) e o =
      ((s ++ (inferLoop l e o).1),
        match lookupExt (s ++ (inferLoop l e o).1) with
        | some v => some v
        | none => (inferLoop l e o).2) := by
  induction l generalizing e o with
  | nil => rfl
  | cons t rest ih => simp only [List.cons_append, inferLoop]; exact ih _ _

theorem lookup_mem {α β : Type} [BEq α] [LawfulBEq α]
    (l : List (α × β)) (k : α) (v : β) (h : l.lookup k = some v) :
    (k, v) ∈ l := by
  induction l with
  | nil => simp [List.lookup] at h
  | cons p rest ih =>
    obtain ⟨k', v'⟩ := p
    rw [List.lookup] at h
    cases hk : k == k' with
    | true =>
      rw [hk] at h
      cases h
      exact (eq_of_beq hk) ▸ List.mem_cons_self _ _
    | false =>
      rw [hk] at h
      exact List.mem_cons_of_mem _ (ih h)

theorem write_resolved (p : String) (mesh : Mesh) (f : String) (kw : Kwargs)
    (w : Kwargs → BackendCall) (hf : f ≠ "") (hw : writerLookup f = some w) :
    write (.path p) mesh (some f) kw =
      match checkCells mesh.cells with
      | .error e => .error e
      | .ok _ => .ok (w kw) := by
  unfold write resolveWriteFormat
  dsimp only
  rw [if_neg hf]
  dsimp only
  rw [hw]

theorem write_resolved_buffer (mesh : Mesh) (f : String) (kw : Kwargs)
    (w : Kwargs → BackendCall) (hf : f ≠ "tetgen") (hw : writerLookup f = some w) :
    write .buffer mesh (some f) kw =
      match checkCells mesh.cells with
      | .error e => .error e
      | .ok _ => .ok (w kw) := by
  unfold write resolveWriteFormat
  dsimp only
  rw [if_neg hf]
  dsimp only
  rw [hw]

theorem write_unknown (p : String) (mesh : Mesh) (f : String) (kw : Kwargs)
    (hf : f ≠ "") (hw : writerLookup f = none) :
    write (.path p) mesh (some f) kw = .error (.keyError
      ("Unknown format \x27" ++ f ++ "\x27. Pick one of " ++
        pyReprStrList (sortStr writerKeys))) := by
  unfold write resolveWriteFormat
  dsimp only
  rw [if_neg hf]
  dsimp only
  rw [hw]

theorem writer_map_entry_kwargs (e : String × (Kwargs → BackendCall))
    (he : e ∈ writer_map) :
    e.1 ∈ xdmfDataFmtAliases ∨ ∀ kw, (e.2 kw).kwargs = kw := by
  fin_cases he <;> first
    | exact Or.inl (by decide)
    | exact Or.inr (fun kw => rfl)

/-- C1: for every path whose full accumulated suffix chain is a key of
`_extension_to_filetype`, `_filetype_from_path` returns the mapped
identifier — the scan walks the suffixes from the rightmost leftward
without stopping at the first match, so the match recorded last (on the
longest accumulated extension) wins; in particular paths ending in
`.dato.gz` and in `.dato` both infer `"permas"` (see the witness). -/
theorem C1_infer_full_chain_wins (p : String) (fmt : String)
    (h : lookupExt (fullExt p) = some fmt) :
    filetype_from_path p = .ok fmt := by
  cases hl : pathSuffixes p with
  | nil =>
    rw [fullExt, hl] at h
    simp only [List.reverse_nil, List.foldl_nil] at h
    exact absurd h (by rw [show lookupExt "" = none from rfl]; simp)
  | cons s rest =>
    have hfull : s ++ (inferLoop rest.reverse "" none).1 = fullExt p := by
      rw [inferLoop_fst, fullExt, hl, List.reverse_cons, List.foldl_append,
        List.foldl_cons, List.foldl_nil]
    unfold filetype_from_path
    rw [hl, List.reverse_cons, inferLoop_append, hfull, h]

theorem C1_infer_full_chain_wins_witness :
    lookupExt (fullExt "mesh.dato.gz") = some "permas" ∧
    filetype_from_path "mesh.dato.gz" = .ok "permas" ∧
    lookupExt (fullExt "mesh.dato") = some "permas" ∧
    filetype_from_path "mesh.dato" = .ok "permas" :=
  ⟨rfl, C1_infer_full_chain_wins "mesh.dato.gz" "permas" rfl,
   rfl, C1_infer_full_chain_wins "mesh.dato" "permas" rfl⟩

/-- C8: `read` on a filesystem path that does not exist fails with the
"not found" `ReadError` — for every value of the format argument, so in
particular before and independently of any format inference or registry
resolution (the result is the same even when the extension is unknown or
the format identifier is unresolvable). -/
theorem C8_missing_file (ex : String → Bool) (p : String) (fmt : Option String)
    (h : ex p = false) :
    read ex (.path p) fmt = .error (.readError ("File " ++ p ++ " not found.")) := by
  unfold read
  dsimp only
  rw [h]
  rfl

theorem C8_missing_file_witness :
    read (fun _ => false) (.path "no_such_file.unknownext") none =
      .error (.readError "File no_such_file.unknownext not found.") :=
  C8_missing_file (fun _ => false) "no_such_file.unknownext" none rfl

/-- C4: on a buffer source or destination, `read` and `write` each fail
with a usage error when no explicit format is given, and each fail with
the "cannot be read from / written to a buffer" error when the explicit
format is `"tetgen"`, the multi-file format. -/
theorem C4_buffer_errors :
    (∀ ex, read ex .buffer none =
      .error (.readError "File format must be given if buffer is used")) ∧
    (∀ ex, read ex .buffer (some "tetgen") = .error (.readError
      "tetgen format is spread across multiple files, and so cannot be read from a buffer")) ∧
    (∀ mesh kw, write .buffer mesh none kw =
      .error (.writeError "File format must be supplied if `filename` is a buffer")) ∧
    (∀ mesh kw, write .buffer mesh (some "tetgen") kw = .error (.writeError
      "tetgen format is spread across multiple files, and so cannot be written to a buffer")) :=
  ⟨fun _ => rfl, fun _ => rfl, fun _ _ => rfl, fun _ _ => rfl⟩

theorem write_unknown_buffer (mesh : Mesh) (f : String) (kw : Kwargs)
    (hf : f ≠ "tetgen") (hw : writerLookup f = none) :
    write .buffer mesh (some f) kw = .error (.keyError
      ("Unknown format \x27" ++ f ++ "\x27. Pick one of " ++
        pyReprStrList (sortStr writerKeys))) := by
  unfold write resolveWriteFormat
  dsimp only
  rw [if_neg hf]
  dsimp only
  rw [hw]

/-- C2: once the format identifier resolves, `write` behaves as the cell
sanity check followed (only on success) by the writer invocation, and the
check judges one block exactly as the claim says: a `polygonN`-family key
(one whose first seven characters are `polygon` and whose remainder parses
as an integer `n`) passes iff the row width equals `n`; otherwise a key in
the static cell-shape table passes iff the row width equals the table's
node count; any other key is skipped and passes regardless of width.
Nothing is mutated: `write` only inspects the mesh. -/
theorem C2_write_validation :
    (∀ fn mesh f kw w, writerLookup f = some w → f ≠ "tetgen" → f ≠ "" →
      write fn mesh (some f) kw =
        match checkCells mesh.cells with
        | .error e => .error e
        | .ok _ => .ok (w kw)) ∧
    (∀ key n width, strTake key 7 = "polygon" → pyInt (strDrop key 7) = .ok n →
      checkCell key width =
        if (width : Int) = n then .ok () else .error (.writeError "")) ∧
    (∀ key n width, strTake key 7 ≠ "polygon" →
      num_nodes_per_cell.lookup key = some n →
      checkCell key width = if width = n then .ok () else .error (.writeError "")) ∧
    (∀ key width, strTake key 7 ≠ "polygon" →
      num_nodes_per_cell.lookup key = none →
      checkCell key width = .ok ()) := by
  refine ⟨?_, ?_, ?_, ?_⟩
  · intro fn mesh f kw w hw ht he
    cases fn with
    | buffer => exact write_resolved_buffer _ _ _ _ ht hw
    | path p => exact write_resolved p _ _ _ _ he hw
  · intro key n width h1 h2
    unfold checkCell
    rw [if_pos h1, h2]
    dsimp only
    by_cases hw : (width : Int) = n
    · rw [if_pos hw, if_neg (by exact fun c => c hw)]
    · rw [if_neg hw, if_pos hw]
  · intro key n width h1 h2
    unfold checkCell
    rw [if_neg h1, h2]
    dsimp only
    by_cases hw : width = n
    · rw [if_pos hw, if_neg (by exact fun c => c hw)]
    · rw [if_neg hw, if_pos hw]
  · intro key width h1 h2
    unfold checkCell
    rw [if_neg h1, h2]

theorem C2_write_validation_witness :
    write (.path "out.vtk") ⟨[[0, 0], [1, 0], [0, 1]], [("triangle", 3)]⟩
      (some "vtk-ascii") [] = .ok ⟨.vtk, none, some false, none, []⟩ ∧
    write (.path "out.vtk") ⟨[[0, 0], [1, 0], [0, 1]], [("triangle", 4)]⟩
      (some "vtk-ascii") [] = .error (.writeError "") ∧
    checkCell "polygon5" 5 = .ok () ∧
    checkCell "polygon5" 6 = .error (.writeError "") ∧
    checkCell "custom_xyz" 99 = .ok () := by
  have h := C2_write_validation
  refine ⟨?_, ?_, ?_, ?_, ?_⟩
  · rw [h.1 (.path "out.vtk") _ "vtk-ascii" []
      (fun kw => ⟨.vtk, none, some false, none, kw⟩) rfl (by decide) (by decide)]
    rfl
  · rw [h.1 (.path "out.vtk") _ "vtk-ascii" []
      (fun kw => ⟨.vtk, none, some false, none, kw⟩) rfl (by decide) (by decide)]
    rfl
  · have hc := h.2.1 "polygon5" 5 5 rfl rfl
    simpa using hc
  · have hc := h.2.1 "polygon5" 5 6 rfl rfl
    simpa using hc
  · exact h.2.2.2 "custom_xyz" 99 (by decide) rfl

/-- C3: each write alias dispatches to its group's single backend with the
fixed parameters the alias encodes: the four gmsh aliases invoke the gmsh
backend with version token "2" or "4" and binary flag false or true, and
the two ansys aliases invoke the ansys backend differing only in the
binary flag; the caller's kwargs ride along unchanged in every case. -/
theorem C3_write_alias_dispatch (p : String) (mesh : Mesh) (kw : Kwargs)
    (hm : checkCells mesh.cells = .ok ()) :
    write (.path p) mesh (some "gmsh2-ascii") kw =
      .ok ⟨.gmsh, some "2", some false, none, kw⟩ ∧
    write (.path p) mesh (some "gmsh2-binary") kw =
      .ok ⟨.gmsh, some "2", some true, none, kw⟩ ∧
    write (.path p) mesh (some "gmsh4-ascii") kw =
      .ok ⟨.gmsh, some "4", some false, none, kw⟩ ∧
    write (.path p) mesh (some "gmsh4-binary") kw =
      .ok ⟨.gmsh, some "4", some true, none, kw⟩ ∧
    write (.path p) mesh (some "ansys-ascii") kw =
      .ok ⟨.ansys, none, some false, none, kw⟩ ∧
    write (.path p) mesh (some "ansys-binary") kw =
      .ok ⟨.ansys, none, some true, none, kw⟩ := by
  refine ⟨?_, ?_, ?_, ?_, ?_, ?_⟩
  · rw [write_resolved p mesh "gmsh2-ascii" kw
      (fun kw => ⟨.gmsh, some "2", some false, none, kw⟩) (by decide) rfl, hm]
  · rw [write_resolved p mesh "gmsh2-binary" kw
      (fun kw => ⟨.gmsh, some "2", some true, none, kw⟩) (by decide) rfl, hm]
  · rw [write_resolved p mesh "gmsh4-ascii" kw
      (fun kw => ⟨.gmsh, some "4", some false, none, kw⟩) (by decide) rfl, hm]
  · rw [write_resolved p mesh "gmsh4-binary" kw
      (fun kw => ⟨.gmsh, some "4", some true, none, kw⟩) (by decide) rfl, hm]
  · rw [write_resolved p mesh "ansys-ascii" kw
      (fun kw => ⟨.ansys, none, some false, none, kw⟩) (by decide) rfl, hm]
  · rw [write_resolved p mesh "ansys-binary" kw
      (fun kw => ⟨.ansys, none, some true, none, kw⟩) (by decide) rfl, hm]

theorem C3_write_alias_dispatch_witness :
    write (.path "m") ⟨[], []⟩ (some "gmsh2-ascii") [("k", "v")] =
      .ok ⟨.gmsh, some "2", some false, none, [("k", "v")]⟩ ∧
    write (.path "m") ⟨[], []⟩ (some "ansys-binary") [("k", "v")] =
      .ok ⟨.ansys, none, some true, none, [("k", "v")]⟩ :=
  ⟨(C3_write_alias_dispatch "m" ⟨[], []⟩ [("k", "v")] rfl).1,
   (C3_write_alias_dispatch "m" ⟨[], []⟩ [("k", "v")] rfl).2.2.2.2.2⟩

/-- C5 as stated is false: the unknown-write-format failure is the builtin
`KeyError` raised by the `except KeyError: raise KeyError(...)` handler in
`write` (lines 277-284), not a `WriteError`. -/
theorem C5_counterexample :
    raisedKeyError (write (.path "m") ⟨[], []⟩ (some "nonsense") []) = true ∧
    raisedWriteError (write (.path "m") ⟨[], []⟩ (some "nonsense") []) = false := by
  exact ⟨rfl, rfl⟩

set_option maxHeartbeats 1000000 in
/-- C5 amended: on an unknown resolved format, `write` raises a `KeyError`
(not a `WriteError`) whose diagnostic names the format and enumerates all
registered write identifiers sorted ascending; the read side's
unknown-format diagnostic is a `ReadError` with different text, so the two
diagnostics are distinct. -/
theorem C5_unknown_write_format (fn : FileName) (mesh : Mesh) (f : String)
    (kw : Kwargs) (h : writerLookup f = none) (ht : f ≠ "tetgen")
    (he : f ≠ "") :
    write fn mesh (some f) kw = .error (.keyError
      ("Unknown format \x27" ++ f ++ "\x27. Pick one of " ++
        pyReprStrList (sortStr writerKeys))) ∧
    StrSorted (sortStr writerKeys) ∧
    List.Perm (sortStr writerKeys) writerKeys ∧
    (∀ ex g, readerLookup g = none → g ≠ "tetgen" →
      read ex .buffer (some g) = .error (.readError
        ("Unknown file format \x27" ++ g ++ "\x27"))) ∧
    (∀ a b : String, PyError.keyError a ≠ PyError.readError b) := by
  refine ⟨?_, by decide, by decide, ?_, ?_⟩
  · cases fn with
    | buffer => exact write_unknown_buffer _ _ _ ht h
    | path p => exact write_unknown p _ _ _ he h
  · intro ex g hg hgt
    unfold read
    dsimp only
    rw [if_neg hgt, hg]
  · intro a b hab
    exact PyError.noConfusion hab

theorem C5_unknown_write_format_witness :
    write (.path "m.fake") ⟨[], []⟩ (some "nonsense") [] = .error (.keyError
      ("Unknown format \x27nonsense\x27. Pick one of " ++
        pyReprStrList (sortStr writerKeys))) :=
  (C5_unknown_write_format (.path "m.fake") ⟨[], []⟩ "nonsense" [] rfl
    (by decide) (by decide)).1

/-- C6 as stated is false: the `xdmf-binary` write entry accepts the
caller's kwargs but invokes the backend with none of them. -/
theorem C6_counterexample :
    write (.path "m") ⟨[], []⟩ (some "xdmf-binary") [("compression", "gzip")] =
      .ok ⟨.xdmf, none, none, some "Binary", []⟩ ∧
    (⟨.xdmf, none, none, some "Binary", []⟩ : BackendCall).kwargs ≠
      [("compression", "gzip")] :=
  ⟨rfl, by decide⟩

/-- C6 amended: for every write identifier except the six xdmf data-format
aliases (`xdmf-binary`, `xdmf-hdf`, `xdmf-xml` and their `xdmf3` twins,
whose entries discard the caller's options), `write` forwards the caller's
keyword options verbatim and in full to the writer backend. -/
theorem C6_kwargs_forwarded (p f : String) (mesh : Mesh) (kw : Kwargs)
    (w : Kwargs → BackendCall) (hw : writerLookup f = some w)
    (hna : f ∉ xdmfDataFmtAliases) (hf : f ≠ "")
    (hm : checkCells mesh.cells = .ok ()) :
    write (.path p) mesh (some f) kw = .ok (w kw) ∧ (w kw).kwargs = kw := by
  constructor
  · rw [write_resolved _ _ _ _ _ hf hw, hm]
  · have hmem := lookup_mem _ _ _ hw
    rcases writer_map_entry_kwargs (f, w) hmem with hc | hc
    · exact absurd hc hna
    · exact hc kw

theorem C6_kwargs_forwarded_witness :
    write (.path "m") ⟨[], []⟩ (some "vtu-binary") [("compression", "gzip")] =
      .ok ⟨.vtu, none, some true, none, [("compression", "gzip")]⟩ :=
  (C6_kwargs_forwarded "m" "vtu-binary" ⟨[], []⟩ [("compression", "gzip")]
    (fun kw => ⟨.vtu, none, some true, none, kw⟩) rfl (by decide) (by decide)
    rfl).1

/-- C9 as stated is false: `input_filetypes` is not sorted, and `read`
accepts the identifier `"tetgen"`, which `input_filetypes` omits. -/
theorem C9_counterexample :
    strSortedB input_filetypes = false ∧
    strSortedB output_filetypes = false ∧
    (readerLookup "tetgen").isSome = true ∧
    input_filetypes.contains "tetgen" = false := by decide

/-- C9 amended: every identifier in `input_filetypes` is accepted by
`read` and every identifier in `output_filetypes` is accepted by `write`,
but neither list is sorted and neither is exhaustive: `read` additionally
accepts e.g. `"tetgen"` and `write` additionally accepts e.g. `"vtk"`. -/
theorem C9_lists_incomplete_unsorted :
    input_filetypes.all (fun f => (readerLookup f).isSome) = true ∧
    output_filetypes.all (fun f => (writerLookup f).isSome) = true ∧
    strSortedB input_filetypes = false ∧
    strSortedB output_filetypes = false ∧
    (readerLookup "tetgen").isSome = true ∧
    input_filetypes.contains "tetgen" = false ∧
    (writerLookup "vtk").isSome = true ∧
    output_filetypes.contains "vtk" = false := by decide

/-- C10: a cell key whose first seven characters are `"polygon"` but whose
remainder is not a decimal integer literal makes the sanity check raise
the unguarded `ValueError` coming from `int(key[7:])` — not a
`WriteError` — and `write` propagates exactly that error.  "Not a decimal
integer literal" is `pyIntOk … = false`, with the remainder restricted to
ASCII characters — the range on which the embedded `int()` grammar
(whitespace stripping, optional sign, underscore-grouped digits) coincides
exactly with the builtin's, so that the hypothesis names precisely the
keys on which `int()` raises; the claim's examples `"polygon"` and
`"polygonal"` lie in this range. -/
theorem C10_polygon_bad_int (key : String) (width : Nat) (p f : String)
    (kw : Kwargs) (w : Kwargs → BackendCall) (pts : List (List Int))
    (rest : List (String × Nat)) (h1 : strTake key 7 = "polygon")
    (_hascii : (strDrop key 7).data.all (fun c => c.toNat < 128) = true)
    (h2 : pyIntOk (strDrop key 7) = false)
    (hw : writerLookup f = some w) (hf : f ≠ "") :
    checkCell key width = .error (.valueError
      ("invalid literal for int() with base 10: \x27" ++ strDrop key 7 ++ "\x27")) ∧
    write (.path p) ⟨pts, (key, width) :: rest⟩ (some f) kw = .error (.valueError
      ("invalid literal for int() with base 10: \x27" ++ strDrop key 7 ++ "\x27")) := by
  have hp : pyInt (strDrop key 7) = .error (.valueError
      ("invalid literal for int() with base 10: \x27" ++ strDrop key 7 ++ "\x27")) := by
    unfold pyIntOk at h2
    unfold pyInt at h2 ⊢
    cases hparse : pyIntParse (strDrop key 7).data with
    | none => rfl
    | some n => rw [hparse] at h2; simp at h2
  have hcc : checkCell key width = .error (.valueError
      ("invalid literal for int() with base 10: \x27" ++ strDrop key 7 ++ "\x27")) := by
    unfold checkCell
    rw [if_pos h1, hp]
  refine ⟨hcc, ?_⟩
  rw [write_resolved _ _ _ _ _ hf hw]
  unfold checkCells
  rw [hcc]

theorem C10_polygon_bad_int_witness :
    checkCell "polygonal" 3 = .error (.valueError
      "invalid literal for int() with base 10: \x27al\x27") ∧
    write (.path "m") ⟨[], [("polygon", 2)]⟩ (some "vtk-ascii") [] =
      .error (.valueError "invalid literal for int() with base 10: \x27\x27") :=
  ⟨(C10_polygon_bad_int "polygonal" 3 "m" "vtk-ascii" []
      (fun kw => ⟨.vtk, none, some false, none, kw⟩) [] [] rfl rfl rfl rfl
      (by decide)).1,
   (C10_polygon_bad_int "polygon" 2 "m" "vtk-ascii" []
      (fun kw => ⟨.vtk, none, some false, none, kw⟩) [] [] rfl rfl rfl rfl
      (by decide)).2⟩

end Meshio
